import Mathlib

/-
Verification of the DIY client-side router from fu4303/react-routing-diy.

The router lives in src/App.js and src/solution.js (identical logic):

  const [page, setPage] = React.useState(window.location.pathname);
  const navigate = (event) => {
    event.preventDefault();
    const newPath = event.target.pathname;
    window.history.pushState(null, null, newPath);
    setPage(newPath);
  };
  React.useEffect(() => {
    const onHistoryChange = () => { setPage(window.location.pathname); };
    window.addEventListener("popstate", onHistoryChange);
    return () => window.removeEventListener("popstate", onHistoryChange);
  }, []);
  ...
  <main>
    {page === "/" && <Home />}
    {page === "/about" && <About />}
    {page === "/contact" && <Contact />}
  </main>

We embed the host environment (history stack, location, popstate listener)
and the component state as explicit state passing, and the render step as a
pure function from the page state to the list of page components shown.
-/

namespace ReactRouting

/-- The host environment's history facility.  `back` holds the entries behind
the current one (most recent first), `current` is the current entry's path
(what `window.location.pathname` reports), `forward` holds the entries ahead
of the pointer (reachable with the forward button). -/
structure Host where
  back : List String
  current : String
  forward : List String
deriving DecidableEq

/-- `window.location.pathname`: the host's reported current path. -/
def locationPathname (h : Host) : String :=
  h.current

/-- `window.history.pushState(null, null, path)`: appends a new entry for
`path` and moves the pointer to it, discarding any forward entries; the host
does not fire `popstate` for a programmatic push. -/
def pushState (path : String) (h : Host) : Host :=
  { back := h.current :: h.back, current := path, forward := [] }

/-- The host-driven back step (user presses the back button): the host moves
the history pointer itself, then fires `popstate`.  With an empty back stack
the host stays put. -/
def hostBack (h : Host) : Host :=
  match h.back with
  | [] => h
  | p :: rest => { back := rest, current := p, forward := h.current :: h.forward }

/-- The component's state: the `page` string held by `React.useState`. -/
structure AppState where
  page : String
deriving DecidableEq

/-- Modelled from the spec: the notification behaviour of the state setter is
implemented by React (not by code under src/).  Per §4.1 the store "triggers
observer notification if and only if the new value differs from the old",
which is also React's documented bail-out for `useState` setters: setting a
value equal (by `Object.is`) to the current state skips the re-render.  The
returned flag records whether observers were notified (a re-render fired). -/
def setPage (newPath : String) (s : AppState) : AppState × Bool :=
  if newPath = s.page then (s, false) else ({ page := newPath }, true)

/-- The click event delivered to `navigate`: the anchor's `pathname` and the
`defaultPrevented` flag toggled by `event.preventDefault()`. -/
structure ClickEvent where
  targetPathname : String
  defaultPrevented : Bool
deriving DecidableEq

/-- Everything `navigate` leaves behind: the mutated event, host, component
state, and whether the state change notified observers. -/
structure NavResult where
  event : ClickEvent
  host : Host
  app : AppState
  notified : Bool
deriving DecidableEq

/-- `navigate` from src/App.js lines 6-11 / src/solution.js lines 7-16:
`event.preventDefault()`, then `window.history.pushState(null, null,
event.target.pathname)`, then `setPage(event.target.pathname)`.  There is no
validation of the path and no error return. -/
def navigate (ev : ClickEvent) (h : Host) (s : AppState) : NavResult :=
  let ev2 := { ev with defaultPrevented := true }
  let newPath := ev.targetPathname
  let h2 := pushState newPath h
  let r := setPage newPath s
  { event := ev2, host := h2, app := r.1, notified := r.2 }

/-- Component construction, src/App.js line 4 / src/solution.js line 5: the
initial state is `window.location.pathname`. -/
def initApp (h : Host) : AppState :=
  { page := locationPathname h }

/-- The `popstate` handler, src/App.js lines 14-16 / src/solution.js lines
20-22: `setPage(window.location.pathname)`.  It reads the host; it never
writes to the host. -/
def onHistoryChange (h : Host) (s : AppState) : AppState × Bool :=
  setPage (locationPathname h) s

/-- A routing session: the host, the component state, and whether the
`popstate` listener registered by the effect is currently attached. -/
structure Session where
  host : Host
  app : AppState
  listenerAttached : Bool
deriving DecidableEq

/-- `window.addEventListener("popstate", onHistoryChange)`. -/
def attachListener (s : Session) : Session :=
  { s with listenerAttached := true }

/-- The effect's cleanup, src/App.js line 18 / src/solution.js line 26:
`window.removeEventListener("popstate", onHistoryChange)`.  Removing a
listener that is not registered is a no-op in the DOM, so this is total and
idempotent. -/
def detach (s : Session) : Session :=
  { s with listenerAttached := false }

/-- A host-driven history change (back button): the host moves its pointer,
then fires `popstate` to the listener if one is attached.  The returned flag
records whether the state change notified observers. -/
def externalHistoryChange (s : Session) : Session × Bool :=
  let h2 := hostBack s.host
  if s.listenerAttached then
    let r := onHistoryChange h2 s.app
    ({ host := h2, app := r.1, listenerAttached := true }, r.2)
  else
    ({ host := h2, app := s.app, listenerAttached := false }, false)

/-- The three page components of the demo app. -/
inductive PageView where
| home : PageView
| about : PageView
| contact : PageView
deriving DecidableEq

/-- The `<main>` block, src/App.js lines 34-38 / src/solution.js lines 45-49:
each page renders exactly when `page` equals its literal pathname. -/
def renderMain (page : String) : List PageView :=
  (if page = ("/") then [PageView.home] else []) ++
  (if page = ("/about") then [PageView.about] else []) ++
  (if page = ("/contact") then [PageView.contact] else [])

/-- Route-matching mode: whole-path equality, or segment-boundary prefix. -/
inductive Mode where
| exact : Mode
| prefixMode : Mode
deriving DecidableEq

/-- Modelled from the spec: the Path Matcher of §4.4 is realised in
src/solution-react-router.js by the external react-router-dom library, whose
matching code is not under src/.  Per the spec: `exact` means `current ==
pattern` after normalization; `prefix` means `current` starts with `pattern`
at a path-segment boundary, and pattern `/` matches every path under prefix
mode. -/
def routeMatches (pat current : String) (mode : Mode) : Bool :=
  match mode with
  | Mode.exact => current == pat
  | Mode.prefixMode =>
      pat == ("/") || current == pat || List.isPrefixOf ((pat ++ ("/")).data) current.data

/-- A registered route: a pattern, a matching mode, and the name of the page
it renders. -/
structure Route where
  pat : String
  mode : Mode
  page : String
deriving DecidableEq

/-- Modelled from the spec: the core "renders all matches" (§4.4) — every
registered route whose pattern matches the current path renders, as each
`<Route>` in src/solution-react-router.js renders independently of the
others. -/
def renderRoutes (routes : List Route) (current : String) : List String :=
  (routes.filter (fun r => routeMatches r.pat current r.mode)).map (fun r => r.page)

/-- Claim C1: after `navigate` returns, the Path Store's current path (the
`page` state) equals the target and the host's reported current path equals
the target; the caller never observes the two diverging, as both updates
complete before `navigate` returns. -/
theorem navigate_syncs_store_and_host (ev : ClickEvent) (h : Host) (s : AppState) :
    (navigate ev h s).app.page = ev.targetPathname ∧
    locationPathname (navigate ev h s).host = ev.targetPathname := by
  refine ⟨?_, rfl⟩
  unfold navigate setPage
  by_cases hc : ev.targetPathname = s.page
  · simp [hc]
  · simp [hc]

/-- Claim C2, counterexample: `navigate` with the target `"about"` (no
leading slash) does not fail: it pushes a history entry and sets the current
path to `"about"`, so the claim that it fails with `InvalidPath`, pushes
nothing and leaves the path unchanged is false on the code. -/
theorem navigate_missing_slash_cex :
    (navigate ⟨("about"), false⟩ ⟨[], ("/"), []⟩ ⟨("/")⟩).app.page = ("about") ∧
    (navigate ⟨("about"), false⟩ ⟨[], ("/"), []⟩ ⟨("/")⟩).host.back = [("/")] ∧
    (navigate ⟨("about"), false⟩ ⟨[], ("/"), []⟩ ⟨("/")⟩).app.page ≠ ("/") := by
  refine ⟨rfl, rfl, by decide⟩

/-- Claim C2, amended: `navigate` performs no validation of the target path.
For every target string — including one without a leading `/` — it returns
normally, pushes exactly one history entry, and sets both the Path Store and
the host's current path to the target unchanged; no `InvalidPath` condition
exists in the code. -/
theorem navigate_accepts_any_target (ev : ClickEvent) (h : Host) (s : AppState) :
    (navigate ev h s).app.page = ev.targetPathname ∧
    (navigate ev h s).host.back = locationPathname h :: h.back ∧
    locationPathname (navigate ev h s).host = ev.targetPathname := by
  refine ⟨?_, rfl, rfl⟩
  unfold navigate setPage
  by_cases hc : ev.targetPathname = s.page
  · simp [hc]
  · simp [hc]

/-- Claim C3: navigating twice in a row to the same path, starting from a
different path, produces exactly one observer notification: the first call
notifies and the second call, with the value unchanged, does not notify
again. -/
theorem navigate_repeat_no_double_notify (ev : ClickEvent) (h : Host) (s : AppState)
    (hne : s.page ≠ ev.targetPathname) :
    (navigate ev h s).notified = true ∧
    (navigate ev (navigate ev h s).host (navigate ev h s).app).notified = false := by
  have h1 : ev.targetPathname ≠ s.page := fun hh => hne hh.symm
  unfold navigate setPage
  simp [h1]

/-- Witness for C3 at the spec's example: two `navigate("/about")` calls from
the path `"/"`. -/
theorem navigate_repeat_no_double_notify_witness :
    (navigate ⟨("/about"), false⟩ ⟨[], ("/"), []⟩ ⟨("/")⟩).notified = true ∧
    (navigate ⟨("/about"), false⟩
        (navigate ⟨("/about"), false⟩ ⟨[], ("/"), []⟩ ⟨("/")⟩).host
        (navigate ⟨("/about"), false⟩ ⟨[], ("/"), []⟩ ⟨("/")⟩).app).notified = false :=
  navigate_repeat_no_double_notify ⟨("/about"), false⟩ ⟨[], ("/"), []⟩ ⟨("/")⟩ (by decide)

/-- Claim C4: with registered routes `{pattern "/", prefix}` and `{pattern
"/about", exact}`, the current path `"/about"` matches both routes, and the
core renders all matches — both pages, not only the most specific one. -/
theorem multi_match_reports_all :
    routeMatches ("/") ("/about") Mode.prefixMode = true ∧
    routeMatches ("/about") ("/about") Mode.exact = true ∧
    renderRoutes
        [⟨("/"), Mode.prefixMode, ("Home")⟩, ⟨("/about"), Mode.exact, ("About")⟩]
        ("/about") = [("Home"), ("About")] := by
  refine ⟨by decide, by decide, by decide⟩

/-- Claim C5: for every host whose current path is `P` at session start, the
page state equals `P` immediately after construction; construction performs
no navigation (it reads the host and does not change it). -/
theorem init_reads_host_path (h : Host) :
    (initApp h).page = locationPathname h := rfl

/-- Claim C6: exact mode matches iff the current path equals the pattern, and
prefix mode respects segment boundaries: with routes `{pattern "/", exact}`
and `{pattern "/about", prefix}`, path `"/about"` matches only the second,
path `"/"` only the first, and `"/about/team"` the second but not the
first. -/
theorem exact_prefix_semantics :
    (∀ pat current : String, routeMatches pat current Mode.exact = true ↔ current = pat) ∧
    routeMatches ("/") ("/about") Mode.exact = false ∧
    routeMatches ("/about") ("/about") Mode.prefixMode = true ∧
    routeMatches ("/") ("/") Mode.exact = true ∧
    routeMatches ("/about") ("/") Mode.prefixMode = false ∧
    routeMatches ("/about") ("/about/team") Mode.prefixMode = true ∧
    routeMatches ("/") ("/about/team") Mode.exact = false := by
  refine ⟨?_, by decide, by decide, by decide, by decide, by decide, by decide⟩
  intro pat current
  simp [routeMatches]

/-- Claim C7: on a host history change with the listener attached, the
listener sets the page state to the host's (new) current path and pushes no
history entry: the host stack after the notification is exactly what the
host's own back step produced. -/
theorem listener_syncs_no_push (s : Session) (ha : s.listenerAttached = true) :
    (externalHistoryChange s).1.app.page = locationPathname (hostBack s.host) ∧
    (externalHistoryChange s).1.host = hostBack s.host := by
  unfold externalHistoryChange onHistoryChange setPage
  rw [ha]
  by_cases hc : locationPathname (hostBack s.host) = s.app.page
  · simp [hc]
  · simp [hc]

/-- Witness for C7: back from `"/about"` to `"/"` with the listener
attached. -/
theorem listener_syncs_no_push_witness :
    (externalHistoryChange ⟨⟨[("/")], ("/about"), []⟩, ⟨("/about")⟩, true⟩).1.app.page
      = locationPathname (hostBack ⟨[("/")], ("/about"), []⟩) ∧
    (externalHistoryChange ⟨⟨[("/")], ("/about"), []⟩, ⟨("/about")⟩, true⟩).1.host
      = hostBack ⟨[("/")], ("/about"), []⟩ :=
  listener_syncs_no_push ⟨⟨[("/")], ("/about"), []⟩, ⟨("/about")⟩, true⟩ rfl

/-- Claim C8: `detach` is idempotent, a second call is a no-op rather than an
error, and after `detach` a host history change leaves the page state
unchanged and fires no notification. -/
theorem detach_idempotent_and_stops_sync (s : Session) :
    detach (detach s) = detach s ∧
    (externalHistoryChange (detach s)).1.app = s.app ∧
    (externalHistoryChange (detach s)).2 = false ∧
    (externalHistoryChange (detach (detach s))).1.app = s.app := by
  refine ⟨rfl, ?_, ?_, ?_⟩ <;> simp [externalHistoryChange, detach]

/-- Claim C9: for every value of the page state at most one page component
renders in `<main>`, and for a path other than `"/"`, `"/about"` and
`"/contact"` nothing renders. -/
theorem render_at_most_one (p : String) :
    (renderMain p).length ≤ 1 ∧
    (p ≠ ("/") → p ≠ ("/about") → p ≠ ("/contact") → renderMain p = []) := by
  constructor
  · unfold renderMain
    split_ifs <;> simp_all
  · intro h1 h2 h3
    unfold renderMain
    simp [h1, h2, h3]

/-- Witness for C9 at a path none of the guards accept. -/
theorem render_at_most_one_witness :
    (renderMain ("/missing")).length ≤ 1 ∧
    (("/missing" : String) ≠ ("/") → ("/missing" : String) ≠ ("/about") →
      ("/missing" : String) ≠ ("/contact") → renderMain ("/missing") = []) :=
  render_at_most_one ("/missing")

/-- Claim C10: every `navigate` call appends exactly one new entry to the
host history, unconditionally — including when the target equals the current
path — so the back stack always grows by exactly one. -/
theorem navigate_always_grows_history (ev : ClickEvent) (h : Host) (s : AppState) :
    (navigate ev h s).host.back = locationPathname h :: h.back ∧
    (navigate ev h s).host.back.length = h.back.length + 1 ∧
    (navigate (⟨locationPathname h, false⟩ : ClickEvent) h s).host.back.length
      = h.back.length + 1 := by
  exact ⟨rfl, rfl, rfl⟩

end ReactRouting
